import Mathlib

/-!
Verification of the Chatterbox integration-test harness
(`integration_tests/integration_test_suite.py`,
`integration_tests/run_integration_tests.py`,
`integration_tests/patched_test.py`).

The harness runs a battery of named checks, capturing per-check timing and
memory deltas, and folds the accumulated results into a summary report.
This file shallowly embeds the harness bookkeeping:

* Wall-clock and memory readings are nondeterministic environment inputs, so
  the two sampling points taken by `_run_test` (before and after the check
  procedure) are passed in as a `RunEnv` record holding exactly the values
  the Python code reads from `time.time()` and `_get_memory_usage()`.
* A check procedure is a state transformer `σ → σ × Except String Payload`:
  the `σ` component models all side effects of the procedure (e.g. the
  lazily-initialized model instance), and the `Except` component models
  normal return versus a raised exception with its message.
* Python `float` quantities are modelled as `ℚ`; `Dict[str, Any]` payloads
  as association lists of strings; a Python `None`-able value as `Option`.
* The one partial operation in the report generator — the division
  `len(successful_tests) / len(self.results)`, which raises
  `ZeroDivisionError` when the result list is empty — is modelled by
  returning `none` in exactly that case.
-/

/-- Model of a check procedure output payload (Python `Dict[str, Any]`). -/
abbrev Payload := List (String × String)

/-- Model of the `TestResult` dataclass. -/
structure TestResult where
  test_name : String
  success : Bool
  execution_time : ℚ
  memory_usage_mb : ℚ
  gpu_memory_mb : Option ℚ
  output_info : Payload
  error_message : Option String
  deriving DecidableEq

/-- Values read at the two sampling points of `_run_test`: wall-clock time,
resident memory and optional accelerator memory, before and after the
procedure runs. A `gpu` field is `none` when CUDA is unavailable at that
sampling point (see `_get_memory_usage`). -/
structure RunEnv where
  start_time : ℚ
  start_ram : ℚ
  start_gpu : Option ℚ
  end_time : ℚ
  end_ram : ℚ
  end_gpu : Option ℚ
  deriving DecidableEq

/-- Python truthiness of a `None`-able float: `None` and `0.0` are falsy. -/
def pyTruthy : Option ℚ → Bool
  | none => false
  | some x => x != 0

/-- Model of `_get_memory_usage`: returns the resident memory in MB and,
only when CUDA is available, the allocated accelerator memory in MB. -/
def _get_memory_usage (cuda_available : Bool) (rss_mb cuda_alloc_mb : ℚ) :
    ℚ × Option ℚ :=
  (rss_mb, if cuda_available then some cuda_alloc_mb else none)

/-- Model of `_run_test`. The Python code samples time and memory, invokes
`test_func` once inside `try`/`except`, samples again, and builds a
`TestResult`. The state after `_run_test` is the state after the single
invocation of `test_func`; the function is total (an exception raised by the
procedure is converted into a failed result, never propagated). The
accelerator delta mirrors the source line
`gpu_memory_mb=end_gpu - start_gpu if end_gpu and start_gpu else None`,
which uses Python truthiness of both samples. -/
def _run_test {σ : Type} (test_name : String)
    (test_func : σ → σ × Except String Payload) (env : RunEnv) (s : σ) :
    σ × TestResult :=
  let s' := (test_func s).1
  let outcome :=
    match (test_func s).2 with
    | Except.ok output_info => (output_info, true, (none : Option String))
    | Except.error e => (([] : Payload), false, some e)
  (s',
    { test_name := test_name
      success := outcome.2.1
      execution_time := env.end_time - env.start_time
      memory_usage_mb := env.end_ram - env.start_ram
      gpu_memory_mb :=
        if pyTruthy env.end_gpu && pyTruthy env.start_gpu then
          some (env.end_gpu.getD 0 - env.start_gpu.getD 0)
        else none
      output_info := outcome.1
      error_message := outcome.2.2 })

/-- Model of the `"test_summary"` block of the summary report. -/
structure TestSummary where
  total_tests : Nat
  successful_tests : Nat
  failed_tests : Nat
  success_rate : ℚ
  deriving DecidableEq

/-- Model of the `"performance_summary"` block of the summary report. -/
structure PerformanceSummary where
  avg_execution_time : ℚ
  max_execution_time : ℚ
  avg_memory_usage_mb : ℚ
  max_memory_usage_mb : ℚ
  deriving DecidableEq

/-- Model of the `"device_info"` block of the summary report. -/
structure DeviceInfo where
  device : String
  cuda_available : Bool
  mps_available : Bool
  deriving DecidableEq

/-- Model of the summary dictionary built by `generate_summary_report`. -/
structure Summary where
  test_summary : TestSummary
  performance_summary : PerformanceSummary
  failed_tests : List (String × Option String)
  device_info : DeviceInfo
  deriving DecidableEq

/-- Model of `np.mean` on a list of floats. -/
def npMean (l : List ℚ) : ℚ := l.sum / l.length

/-- Model of `np.max` on a nonempty list of floats (the code only applies it
under a nonemptiness guard). -/
def npMax : List ℚ → ℚ
  | [] => 0
  | x :: xs => xs.foldl max x

/-- Model of `generate_summary_report`. Mirrors the source: successful and
failed results are the two filters of `self.results`; `success_rate` is
`len(successful_tests) / len(self.results) * 100`, which raises
`ZeroDivisionError` when `self.results` is empty — modelled as `none`; the
four performance aggregates are each guarded by the Python truthiness of the
list (`np.mean(xs) if xs else 0`), over successful results only. -/
def generate_summary_report (results : List TestResult) (dev : DeviceInfo) :
    Option Summary :=
  let successful_tests := results.filter (fun r => r.success)
  let failed_tests := results.filter (fun r => !r.success)
  let execution_times := successful_tests.map (fun r => r.execution_time)
  let memory_usage := successful_tests.map (fun r => r.memory_usage_mb)
  if results.length = 0 then none
  else some
    { test_summary :=
        { total_tests := results.length
          successful_tests := successful_tests.length
          failed_tests := failed_tests.length
          success_rate :=
            (successful_tests.length : ℚ) / (results.length : ℚ) * 100 }
      performance_summary :=
        { avg_execution_time :=
            if execution_times.isEmpty then 0 else npMean execution_times
          max_execution_time :=
            if execution_times.isEmpty then 0 else npMax execution_times
          avg_memory_usage_mb :=
            if memory_usage.isEmpty then 0 else npMean memory_usage
          max_memory_usage_mb :=
            if memory_usage.isEmpty then 0 else npMax memory_usage }
      failed_tests := failed_tests.map (fun r => (r.test_name, r.error_message))
      device_info := dev }

/-- Projection of a summary onto the RunReport fields of the specification
(counts, ratio, aggregates, failed list) — everything except the
environment-dependent `device_info` block. -/
def reportFields (s : Summary) :
    TestSummary × PerformanceSummary × List (String × Option String) :=
  (s.test_summary, s.performance_summary, s.failed_tests)

/-- Outcome of the `try` block of `run_integration_tests.main`: either
`run_all_tests` returned a summary, or some step raised. -/
inductive RunOutcome where
  | ok (summary : Summary)
  | err (msg : String)
  deriving DecidableEq

/-- Model of `run_integration_tests.main`: returns 1 when the suite file is
missing, when installing requirements fails, or when running the suite
raises; otherwise 0 exactly when the summary reports zero failed tests.
(The source function is named `main`, which Lean reserves for entry points.) -/
def main_run (suite_exists install_ok : Bool) (run : RunOutcome) : Nat :=
  if !suite_exists then 1
  else if !install_ok then 1
  else
    match run with
    | RunOutcome.ok summary =>
        if summary.test_summary.failed_tests = 0 then 0 else 1
    | RunOutcome.err _ => 1

/-- Model of a Python class object held in a module attribute. -/
inductive PyObj where
  | dummyWatermarker
  | perthImplicit
  | other (n : Nat)
  deriving DecidableEq

/-- Model of the mutable state of the external `perth` module: its
`PerthImplicitWatermarker` attribute (which may be `None` — the packaging
defect being worked around) and its `DummyWatermarker` attribute. -/
structure PerthModule where
  PerthImplicitWatermarker : Option PyObj
  DummyWatermarker : PyObj
  deriving DecidableEq

/-- Model of the module-level patch in `patched_test.py`:
`if perth.PerthImplicitWatermarker is None:
perth.PerthImplicitWatermarker = perth.DummyWatermarker`. -/
def patch_perth (m : PerthModule) : PerthModule :=
  if m.PerthImplicitWatermarker = none then
    { m with PerthImplicitWatermarker := some m.DummyWatermarker }
  else m

/-- Auxiliary: the success and failure filters of a result list partition
it, so their lengths add up to the list's length. -/
theorem length_filter_success_add_not (l : List TestResult) :
    (l.filter (fun r => r.success)).length
      + (l.filter (fun r => !r.success)).length = l.length :=
  (List.length_eq_length_filter_add (l := l) (fun r => r.success)).symm

/-- C1: on an empty result sequence, `generate_summary_report` does not
return a report at all: the `success_rate` expression divides
`len(successful_tests)` by `len(self.results) = 0` and the call raises
`ZeroDivisionError` (modelled by `none`), contrary to the documented edge
case of returning success ratio 0 and average duration 0 without raising.
The four performance aggregates are individually guarded against emptiness
in the source, but the success-rate division is not. -/
theorem empty_battery_division_by_zero (dev : DeviceInfo) :
    generate_summary_report [] dev = none := rfl

/-- C2: `_run_test` invokes the procedure exactly once (the final state is
the state after a single invocation) and always returns a `TestResult`: on
normal return the result has `success = true`, the procedure's payload and
no error message; on a raised exception the result has `success = false`,
an empty payload and the exception's message — the exception never
propagates (the embedding is a total function into `TestResult`). -/
theorem run_test_contract {σ : Type} (test_name : String)
    (test_func : σ → σ × Except String Payload) (env : RunEnv) (s : σ) :
    (_run_test test_name test_func env s).1 = (test_func s).1 ∧
    (∀ p, (test_func s).2 = Except.ok p →
      (_run_test test_name test_func env s).2.success = true ∧
      (_run_test test_name test_func env s).2.output_info = p ∧
      (_run_test test_name test_func env s).2.error_message = none) ∧
    (∀ e, (test_func s).2 = Except.error e →
      (_run_test test_name test_func env s).2.success = false ∧
      (_run_test test_name test_func env s).2.output_info = [] ∧
      (_run_test test_name test_func env s).2.error_message = some e) := by
  refine ⟨rfl, ?_, ?_⟩ <;> intro x hx <;> simp [_run_test, hx]

/-- Sampling points with no accelerator present at either sample. -/
def envNoGpu : RunEnv :=
  { start_time := 0, start_ram := 100, start_gpu := none
    end_time := 2, end_ram := 103, end_gpu := none }

/-- Concrete check procedure (over a counter state) that returns a payload. -/
def procOk (n : Nat) : Nat × Except String Payload :=
  (n + 1, Except.ok [("shape", "[1, 16000]")])

/-- Concrete check procedure (over a counter state) that raises. -/
def procErr (n : Nat) : Nat × Except String Payload :=
  (n + 1, Except.error ("CUDA out of memory"))

/-- C2 witness: the runner contract evaluated on concrete succeeding and
raising procedures over a counter state that records invocations. -/
theorem run_test_contract_witness :
    (_run_test ("Basic TTS") procOk envNoGpu 0).1 = 1 ∧
    (_run_test ("Basic TTS") procOk envNoGpu 0).2.success = true ∧
    (_run_test ("Basic TTS") procOk envNoGpu 0).2.output_info
      = [("shape", "[1, 16000]")] ∧
    (_run_test ("Edge Cases") procErr envNoGpu 0).1 = 1 ∧
    (_run_test ("Edge Cases") procErr envNoGpu 0).2.success = false ∧
    (_run_test ("Edge Cases") procErr envNoGpu 0).2.output_info = [] ∧
    (_run_test ("Edge Cases") procErr envNoGpu 0).2.error_message
      = some ("CUDA out of memory") :=
  ⟨(run_test_contract ("Basic TTS") procOk envNoGpu 0).1,
   ((run_test_contract ("Basic TTS") procOk envNoGpu 0).2.1 _ rfl).1,
   ((run_test_contract ("Basic TTS") procOk envNoGpu 0).2.1 _ rfl).2.1,
   (run_test_contract ("Edge Cases") procErr envNoGpu 0).1,
   ((run_test_contract ("Edge Cases") procErr envNoGpu 0).2.2 _ rfl).1,
   ((run_test_contract ("Edge Cases") procErr envNoGpu 0).2.2 _ rfl).2.1,
   ((run_test_contract ("Edge Cases") procErr envNoGpu 0).2.2 _ rfl).2.2⟩

/-- C4: for every result produced by `_run_test`, the error message is
present (not `none`) exactly when the check failed. -/
theorem error_iff_failed {σ : Type} (test_name : String)
    (test_func : σ → σ × Except String Payload) (env : RunEnv) (s : σ) :
    (_run_test test_name test_func env s).2.error_message ≠ none
      ↔ (_run_test test_name test_func env s).2.success = false := by
  cases h : (test_func s).2 <;> simp [_run_test, h]

/-- C4 witness: the equivalence evaluated on a concrete failing run. -/
theorem error_iff_failed_witness :
    (_run_test ("Edge Cases") procErr envNoGpu 0).2.error_message ≠ none ∧
    (_run_test ("Edge Cases") procErr envNoGpu 0).2.success = false :=
  ⟨(error_iff_failed ("Edge Cases") procErr envNoGpu 0).mpr rfl, rfl⟩

/-- Sampling points with an accelerator present at both samples but zero
megabytes allocated at the first sample. -/
def c5_env : RunEnv :=
  { start_time := 0, start_ram := 100, start_gpu := some 0
    end_time := 3, end_ram := 110, end_gpu := some 5 }

/-- C5 counterexample: with an accelerator present at both sampling points
(`start_gpu = some 0`, i.e. zero MB allocated before the check, and
`end_gpu = some 5`), the claim requires the recorded accelerator delta to
be `some (5 - 0)`; the code records `none`, because the source guard
`end_gpu - start_gpu if end_gpu and start_gpu else None` treats the float
`0.0` as falsy under Python truthiness. -/
theorem gpu_delta_dropped_at_zero :
    c5_env.start_gpu = some 0 ∧ c5_env.end_gpu = some 5 ∧
    (_run_test ("Basic TTS") procOk c5_env 0).2.gpu_memory_mb = none ∧
    (_run_test ("Basic TTS") procOk c5_env 0).2.gpu_memory_mb
      ≠ some (5 - 0) := by
  refine ⟨rfl, rfl, rfl, ?_⟩
  decide

/-- C5 (amended): for every check run by `_run_test`, regardless of the
procedure's outcome, the recorded elapsed duration is the after minus
before wall-clock sample and the resident delta is the after minus before
resident sample; the accelerator delta equals after minus before
accelerator memory whenever both accelerator samples are present and
nonzero, and it is absent when either sample is missing (no accelerator) or
equal to zero; `_get_memory_usage` skips the accelerator sample exactly
when no accelerator is present. -/
theorem run_test_metrics {σ : Type} (test_name : String)
    (test_func : σ → σ × Except String Payload) (env : RunEnv) (s : σ) :
    (_run_test test_name test_func env s).2.execution_time
        = env.end_time - env.start_time ∧
    (_run_test test_name test_func env s).2.memory_usage_mb
        = env.end_ram - env.start_ram ∧
    (∀ g0 g1 : ℚ, env.start_gpu = some g0 → env.end_gpu = some g1 →
        g0 ≠ 0 → g1 ≠ 0 →
        (_run_test test_name test_func env s).2.gpu_memory_mb
          = some (g1 - g0)) ∧
    ((env.start_gpu = none ∨ env.end_gpu = none ∨
        env.start_gpu = some 0 ∨ env.end_gpu = some 0) →
        (_run_test test_name test_func env s).2.gpu_memory_mb = none) ∧
    (∀ (cuda : Bool) (rss g : ℚ),
        (_get_memory_usage cuda rss g).2 = none ↔ cuda = false) := by
  refine ⟨rfl, rfl, ?_, ?_, ?_⟩
  · intro g0 g1 h0 h1 hg0 hg1
    simp [_run_test, pyTruthy, h0, h1, bne_iff_ne, hg0, hg1]
  · rintro (h | h | h | h) <;> simp [_run_test, pyTruthy, h]
  · intro cuda rss g
    cases cuda <;> simp [_get_memory_usage]

/-- Sampling points with an accelerator present and nonzero at both
samples. -/
def envGpu : RunEnv :=
  { start_time := 0, start_ram := 100, start_gpu := some 2
    end_time := 3, end_ram := 110, end_gpu := some 5 }

/-- C5 witness: the amended metric equations evaluated at concrete sampling
points, with and without an accelerator. -/
theorem run_test_metrics_witness :
    (_run_test ("Basic TTS") procOk envGpu 0).2.execution_time = 3 - 0 ∧
    (_run_test ("Basic TTS") procOk envGpu 0).2.memory_usage_mb = 110 - 100 ∧
    (_run_test ("Basic TTS") procOk envGpu 0).2.gpu_memory_mb = some (5 - 2) ∧
    (_run_test ("Basic TTS") procOk envNoGpu 0).2.gpu_memory_mb = none ∧
    (_get_memory_usage false 100 0).2 = none :=
  ⟨(run_test_metrics ("Basic TTS") procOk envGpu 0).1,
   (run_test_metrics ("Basic TTS") procOk envGpu 0).2.1,
   (run_test_metrics ("Basic TTS") procOk envGpu 0).2.2.1 2 5 rfl rfl
     (by decide) (by decide),
   (run_test_metrics ("Basic TTS") procOk envNoGpu 0).2.2.2.1 (Or.inl rfl),
   ((run_test_metrics ("Basic TTS") procOk envNoGpu 0).2.2.2.2
     false 100 0).mpr rfl⟩

/-- Auxiliary: explicit form of the report generated from a nonempty result
list (the division guard is passed). -/
theorem generate_summary_report_nonempty (results : List TestResult)
    (dev : DeviceInfo) (h : ¬ results.length = 0) :
    generate_summary_report results dev = some
      { test_summary :=
          { total_tests := results.length
            successful_tests := (results.filter (fun r => r.success)).length
            failed_tests := (results.filter (fun r => !r.success)).length
            success_rate :=
              ((results.filter (fun r => r.success)).length : ℚ)
                / (results.length : ℚ) * 100 }
        performance_summary :=
          { avg_execution_time :=
              if ((results.filter (fun r => r.success)).map
                    (fun r => r.execution_time)).isEmpty then 0
              else npMean ((results.filter (fun r => r.success)).map
                    (fun r => r.execution_time))
            max_execution_time :=
              if ((results.filter (fun r => r.success)).map
                    (fun r => r.execution_time)).isEmpty then 0
              else npMax ((results.filter (fun r => r.success)).map
                    (fun r => r.execution_time))
            avg_memory_usage_mb :=
              if ((results.filter (fun r => r.success)).map
                    (fun r => r.memory_usage_mb)).isEmpty then 0
              else npMean ((results.filter (fun r => r.success)).map
                    (fun r => r.memory_usage_mb))
            max_memory_usage_mb :=
              if ((results.filter (fun r => r.success)).map
                    (fun r => r.memory_usage_mb)).isEmpty then 0
              else npMax ((results.filter (fun r => r.success)).map
                    (fun r => r.memory_usage_mb)) }
        failed_tests := (results.filter (fun r => !r.success)).map
            (fun r => (r.test_name, r.error_message))
        device_info := dev } := by
  simp only [generate_summary_report]
  rw [if_neg h]

/-- C3: every summary produced by `generate_summary_report` satisfies
successful count + failed count = total count, and the total count equals
the length of the input sequence. -/
theorem report_counts_consistent (results : List TestResult)
    (dev : DeviceInfo) (s : Summary)
    (hs : generate_summary_report results dev = some s) :
    s.test_summary.successful_tests + s.test_summary.failed_tests
        = s.test_summary.total_tests ∧
    s.test_summary.total_tests = results.length := by
  by_cases h : results.length = 0
  · rw [List.length_eq_zero.mp h] at hs
    simp [generate_summary_report] at hs
  · rw [generate_summary_report_nonempty results dev h] at hs
    injection hs with hs
    subst hs
    exact ⟨length_filter_success_add_not results, rfl⟩

/-- Concrete successful check result. -/
def trOk : TestResult :=
  { test_name := "Basic TTS", success := true, execution_time := 1/2
    memory_usage_mb := 2, gpu_memory_mb := none
    output_info := [("shape", "[1, 16000]")], error_message := none }

/-- Concrete failed check result. -/
def trFail : TestResult :=
  { test_name := "Edge Cases", success := false, execution_time := 1
    memory_usage_mb := 3, gpu_memory_mb := none
    output_info := [], error_message := some ("CUDA out of memory") }

/-- Concrete failed check result, distinct from `trFail`. -/
def trFail2 : TestResult :=
  { test_name := "Concurrent Usage", success := false, execution_time := 2
    memory_usage_mb := 4, gpu_memory_mb := none
    output_info := [], error_message := some ("model not loaded") }

/-- Concrete device description used by the witnesses. -/
def devCpu : DeviceInfo :=
  { device := "cpu", cuda_available := false, mps_available := false }

/-- Concrete all-pass summary. -/
def sumPass : Summary :=
  { test_summary :=
      { total_tests := 9, successful_tests := 9, failed_tests := 0
        success_rate := 100 }
    performance_summary :=
      { avg_execution_time := 1, max_execution_time := 2
        avg_memory_usage_mb := 3, max_memory_usage_mb := 4 }
    failed_tests := []
    device_info := devCpu }

/-- Concrete summary with two failed checks. -/
def sumFail : Summary :=
  { test_summary :=
      { total_tests := 9, successful_tests := 7, failed_tests := 2
        success_rate := 700 / 9 }
    performance_summary :=
      { avg_execution_time := 1, max_execution_time := 2
        avg_memory_usage_mb := 3, max_memory_usage_mb := 4 }
    failed_tests := [("Edge Cases", some ("CUDA out of memory"))]
    device_info := devCpu }

/-- Concrete summary computed by the report generator on a two-result
battery with one success and one failure. -/
def c3_summary : Summary :=
  (generate_summary_report [trOk, trFail] devCpu).getD sumPass

/-- C3 witness: the count identities evaluated on a concrete two-result
battery. -/
theorem report_counts_consistent_witness :
    c3_summary.test_summary.successful_tests
        + c3_summary.test_summary.failed_tests
      = c3_summary.test_summary.total_tests ∧
    c3_summary.test_summary.total_tests
      = ([trOk, trFail] : List TestResult).length :=
  report_counts_consistent [trOk, trFail] devCpu c3_summary rfl

/-- C6: when the suite file exists, the requirements install and the
battery run completes with a summary, the runner's return code is 0 exactly
when the summary's failed count is 0, and 1 (non-zero) otherwise; a run
that raises also returns 1. -/
theorem main_exit_zero_iff (s : Summary) :
    (main_run true true (RunOutcome.ok s) = 0
        ↔ s.test_summary.failed_tests = 0) ∧
    (s.test_summary.failed_tests ≠ 0
        → main_run true true (RunOutcome.ok s) = 1) ∧
    (∀ msg, main_run true true (RunOutcome.err msg) = 1) := by
  by_cases h : s.test_summary.failed_tests = 0 <;> simp [main_run, h]

/-- C6 witness: exit codes for a concrete all-pass summary, a concrete
summary with failures, and a raising run. -/
theorem main_exit_zero_iff_witness :
    main_run true true (RunOutcome.ok sumPass) = 0 ∧
    main_run true true (RunOutcome.ok sumFail) = 1 ∧
    main_run true true (RunOutcome.err ("boom")) = 1 :=
  ⟨(main_exit_zero_iff sumPass).1.mpr rfl,
   (main_exit_zero_iff sumFail).2.1 (by decide),
   (main_exit_zero_iff sumFail).2.2 ("boom")⟩

/-- C7: the RunReport portion of the summary (counts, ratio, aggregates,
failed list) is a pure function of the input result sequence: it does not
depend on the ambient device information, so two calls on the same sequence
produce identical report values. -/
theorem summarize_pure (results : List TestResult) (d1 d2 : DeviceInfo) :
    (generate_summary_report results d1).map reportFields
      = (generate_summary_report results d2).map reportFields := by
  by_cases h : results.length = 0
  · rw [List.length_eq_zero.mp h]
    rfl
  · rw [generate_summary_report_nonempty results d1 h,
        generate_summary_report_nonempty results d2 h]
    rfl

/-- C9: a nonempty battery in which every check failed yields, without
raising, a summary whose success rate is 0 and whose four performance
aggregates are all 0 (they aggregate over successful checks only, of which
there are none). -/
theorem all_failed_zero_report (results : List TestResult) (dev : DeviceInfo)
    (hne : results ≠ [])
    (hall : ∀ r ∈ results, r.success = false) :
    (generate_summary_report results dev).map
        (fun s => (s.test_summary.success_rate, s.performance_summary))
      = some (0, { avg_execution_time := 0, max_execution_time := 0
                   avg_memory_usage_mb := 0, max_memory_usage_mb := 0 }) := by
  have h : ¬ results.length = 0 := fun hl => hne (List.length_eq_zero.mp hl)
  have hfil : results.filter (fun r => r.success) = [] := by
    rw [List.filter_eq_nil_iff]
    intro a ha
    simp [hall a ha]
  rw [generate_summary_report_nonempty results dev h, hfil]
  simp

/-- C9 witness: the all-failed report evaluated on a concrete two-failure
battery. -/
theorem all_failed_zero_report_witness :
    (generate_summary_report [trFail, trFail2] devCpu).map
        (fun s => (s.test_summary.success_rate, s.performance_summary))
      = some (0, { avg_execution_time := 0, max_execution_time := 0
                   avg_memory_usage_mb := 0, max_memory_usage_mb := 0 }) :=
  all_failed_zero_report [trFail, trFail2] devCpu (by decide) (by decide)

/-- C8: any battery of 9 results of which exactly 2 failed produces a
summary with total 9, succeeded 7, failed 2, and a success rate within 0.01
of 77.78 percent (the exact computed value is 700/9). -/
theorem nine_checks_two_failures (results : List TestResult)
    (dev : DeviceInfo) (s : Summary)
    (hlen : results.length = 9)
    (hfail : (results.filter (fun r => !r.success)).length = 2)
    (hs : generate_summary_report results dev = some s) :
    s.test_summary.total_tests = 9 ∧
    s.test_summary.successful_tests = 7 ∧
    s.test_summary.failed_tests = 2 ∧
    |s.test_summary.success_rate - 7778 / 100| ≤ 1 / 100 := by
  have hsucc : (results.filter (fun r => r.success)).length = 7 := by
    have hpart := length_filter_success_add_not results
    omega
  rw [generate_summary_report_nonempty results dev (by omega)] at hs
  injection hs with hs
  subst hs
  refine ⟨hlen, hsucc, hfail, ?_⟩
  show |((results.filter (fun r => r.success)).length : ℚ)
      / (results.length : ℚ) * 100 - 7778 / 100| ≤ 1 / 100
  rw [hsucc, hlen]
  rw [abs_le]
  constructor <;> norm_num

/-- Concrete nine-result battery with exactly two failures. -/
def c8_list : List TestResult :=
  [trOk, trOk, trOk, trOk, trOk, trOk, trOk, trFail, trFail2]

/-- Concrete summary the report generator produces on `c8_list`. -/
def c8_summary : Summary :=
  (generate_summary_report c8_list devCpu).getD sumPass

/-- C8 witness: the scenario evaluated on the concrete nine-result
battery. -/
theorem nine_checks_two_failures_witness :
    c8_summary.test_summary.total_tests = 9 ∧
    c8_summary.test_summary.successful_tests = 7 ∧
    c8_summary.test_summary.failed_tests = 2 ∧
    |c8_summary.test_summary.success_rate - 7778 / 100| ≤ 1 / 100 :=
  nine_checks_two_failures c8_list devCpu c8_summary rfl rfl rfl

/-- C10: the watermarker workaround replaces the module's
`PerthImplicitWatermarker` attribute with its `DummyWatermarker` only when
that attribute is `None`; when it is non-`None` the module is left
unchanged; and applying the patch twice has the same effect as applying it
once. -/
theorem perth_patch_behavior (m : PerthModule) :
    (m.PerthImplicitWatermarker = none →
        patch_perth m
          = { m with PerthImplicitWatermarker := some m.DummyWatermarker }) ∧
    (m.PerthImplicitWatermarker ≠ none → patch_perth m = m) ∧
    patch_perth (patch_perth m) = patch_perth m := by
  refine ⟨fun h => by simp [patch_perth, h],
    fun h => by simp [patch_perth, h], ?_⟩
  by_cases h : m.PerthImplicitWatermarker = none <;> simp [patch_perth, h]

/-- Concrete perth module exhibiting the packaging defect (attribute is
`None`). -/
def perthBroken : PerthModule :=
  { PerthImplicitWatermarker := none
    DummyWatermarker := PyObj.dummyWatermarker }

/-- Concrete healthy perth module. -/
def perthHealthy : PerthModule :=
  { PerthImplicitWatermarker := some PyObj.perthImplicit
    DummyWatermarker := PyObj.dummyWatermarker }

/-- C10 witness: the patch evaluated on a concrete broken module and a
concrete healthy module. -/
theorem perth_patch_behavior_witness :
    patch_perth perthBroken
      = { perthBroken with
          PerthImplicitWatermarker := some PyObj.dummyWatermarker } ∧
    patch_perth perthHealthy = perthHealthy ∧
    patch_perth (patch_perth perthBroken) = patch_perth perthBroken :=
  ⟨(perth_patch_behavior perthBroken).1 rfl,
   (perth_patch_behavior perthHealthy).2.1 (by decide),
   (perth_patch_behavior perthBroken).2.2⟩
